import Mathlib

/-!
# go-antlr-calc: the tree-walking evaluator of `main.go`

A shallow embedding of `CalcVisitor` (its `memory` map, `Visit`, the `Visit*`
methods and `VisitChildren`) and theorems about it.

Conventions of the embedding:

* Go's `int` is a 64-bit two's-complement integer; values are `Int` and every
  arithmetic result is reduced by `wrapInt`.
* A Go `error` is a `GoError`; `nil` is `none`.
* A run-time panic (there is no `recover` in `main.go`) is the outcome
  `Outcome.panic`; the memory at the moment of the panic is still reported.
* `logger.Printf` writes to `ioutil.Discard` unless `--debug` is given and is
  left out.
-/

namespace Calc

/-! ## Go `int` -/

/-- Width of Go's `int` (`strconv.IntSize`) on a 64-bit platform. -/
def intSize : Nat := 64

/-- Smallest `int`, `-2^63`. -/
def minInt : Int := -(2 ^ (intSize - 1))

/-- Largest `int`, `2^63 - 1`. -/
def maxInt : Int := 2 ^ (intSize - 1) - 1

/-- The values an `int` can hold. -/
def inIntRange (x : Int) : Prop := minInt ≤ x ∧ x ≤ maxInt

instance (x : Int) : Decidable (inIntRange x) := by
  unfold inIntRange; exact inferInstance

/-- Two's-complement reduction of a mathematical integer to an `int`. -/
def wrapInt (x : Int) : Int := (x + 2 ^ (intSize - 1)) % 2 ^ intSize - 2 ^ (intSize - 1)

/-- Decimal rendering of an `int`, as `%d` and `%v` print it. -/
def fmtInt : Int → String
  | Int.ofNat n => Nat.repr n
  | Int.negSucc n => "-" ++ Nat.repr (n + 1)

/-! ## Go errors -/

/-- The error values `main.go` can build: the package-level sentinel
`ErrorBlank`, an `fmt.Errorf` without `%w` (`errorString`), an `fmt.Errorf`
with `%w` (`wrapError`, holding the formatted message and the wrapped error)
and the `*strconv.NumError` returned by `strconv.Atoi`. -/
inductive GoError where
  | ErrorBlank : GoError
  | errorString (s : String) : GoError
  | wrapError (msg : String) (err : GoError) : GoError
  | NumError (Func : String) (Num : String) (Err : GoError) : GoError
  deriving DecidableEq, Repr

/-- Escape of one character by `strconv.Quote`, exact on ASCII. A rune above
`0x7f` is kept as it is, which is what `strconv.Quote` does when the rune is
printable; Go escapes the others (`U+00A0` becomes `\u00a0`), the model does
not. -/
def quoteChar (c : Char) : List Char :=
  if c = '"' then ['\\', '"']
  else if c = '\\' then ['\\', '\\']
  else if c = '\n' then ['\\', 'n']
  else if c = '\r' then ['\\', 'r']
  else if c = '\t' then ['\\', 't']
  else if c.toNat = 7 then ['\\', 'a']
  else if c.toNat = 8 then ['\\', 'b']
  else if c.toNat = 12 then ['\\', 'f']
  else if c.toNat = 11 then ['\\', 'v']
  else if c.toNat < 32 ∨ c.toNat = 127 then
    ['\\', 'x', Nat.digitChar (c.toNat / 16), Nat.digitChar (c.toNat % 16)]
  else [c]

/-- The Go function `strconv.Quote`. -/
def Quote (s : String) : String :=
  String.mk ('"' :: (s.data.flatMap quoteChar ++ ['"']))

/-- The method `Error()`: the message of an error. -/
def GoError.Error : GoError → String
  | .ErrorBlank => "Blank Line"
  | .errorString s => s
  | .wrapError msg _ => msg
  | .NumError f n e => "strconv." ++ f ++ ": parsing " ++ Quote n ++ ": " ++ e.Error

/-- The test `errors.Is(err, ErrorBlank)`: walk the `Unwrap` chain looking for
the sentinel itself (pointer identity: an error with the same message built
elsewhere is not the sentinel). -/
def errorsIsErrorBlank : GoError → Bool
  | .ErrorBlank => true
  | .errorString _ => false
  | .wrapError _ err => errorsIsErrorBlank err
  | .NumError _ _ err => errorsIsErrorBlank err

/-- The sentinel `strconv.ErrSyntax`. -/
def ErrSyntax : GoError := .errorString "invalid syntax"

/-- The sentinel `strconv.ErrRange`. -/
def ErrRange : GoError := .errorString "value out of range"

/-! ## `strconv.Atoi` -/

/-- Value of a run of decimal digits read left to right from the accumulator
`acc`; `none` when a character is not a digit. -/
def parseDigits : Nat → List Char → Option Nat
  | acc, [] => some acc
  | acc, c :: cs =>
    if '0' ≤ c ∧ c ≤ '9' then parseDigits (acc * 10 + (c.toNat - '0'.toNat)) cs else none

/-- The Go function `strconv.Atoi` (base 10, `int` of `intSize` bits): an
optional sign followed by at least one digit. The error is `ErrSyntax` for any
other text (value 0) and `ErrRange` when the number does not fit an `int`
(value clamped to the nearest bound); `Num` is the text given. The model
agrees with Go on every text of that form; on a text with a character that is
not a digit it always reports `ErrSyntax`, where Go reports `ErrRange` when
the digits before that character already exceed 64 bits. -/
def Atoi (s : String) : Int × Option GoError :=
  let signed : Bool × List Char :=
    match s.data with
    | '-' :: cs => (true, cs)
    | '+' :: cs => (false, cs)
    | cs => (false, cs)
  match signed.2 with
  | [] => (0, some (.NumError "Atoi" s ErrSyntax))
  | cs =>
    match parseDigits 0 cs with
    | none => (0, some (.NumError "Atoi" s ErrSyntax))
    | some n =>
      let i : Int := if signed.1 then -(n : Int) else (n : Int)
      if i < minInt then (minInt, some (.NumError "Atoi" s ErrRange))
      else if maxInt < i then (maxInt, some (.NumError "Atoi" s ErrRange))
      else (i, none)

/-! ## The parse tree -/

/-- Modelled from the spec: the token-type constants of the generated lexer
(`parser.LabeledExprLexerMUL`, `...DIV`, `...ADD`, `...SUB`) are declared in
package `parser`, which is not among the sources. They are taken as a
parameter; ANTLR gives different token types different numbers. -/
structure LabeledExprLexer where
  MUL : Int
  DIV : Int
  ADD : Int
  SUB : Int
  distinct : [MUL, DIV, ADD, SUB].Nodup

/-- Modelled from the spec: the parse-tree node types of package `parser` and
of the ANTLR runtime are not among the sources. One constructor per node kind
of the spec's statement tree (section 3), named after the Go type `Visit`
dispatches on; `text` is what `GetText()` returns for the node, `id` what
`ctx.ID().GetText()` returns, `op` what `ctx.GetOp().GetTokenType()` returns.
`TerminalNodeImpl` is a plain token node, whose `Accept` returns `nil`. The
`Program` node is the list of children handed to `VisitChildren`. -/
inductive ParseTree where
  | ErrorNodeImpl (text : String) : ParseTree
  | TerminalNodeImpl (text : String) : ParseTree
  | PrintExprContext (text : String) (expr : ParseTree) : ParseTree
  | AssignContext (text : String) (id : String) (expr : ParseTree) : ParseTree
  | BlankContext (text : String) : ParseTree
  | ParensContext (text : String) (expr : ParseTree) : ParseTree
  | MulDivContext (text : String) (left : ParseTree) (op : Int) (right : ParseTree) : ParseTree
  | AddSubContext (text : String) (left : ParseTree) (op : Int) (right : ParseTree) : ParseTree
  | IdContext (text : String) (id : String) : ParseTree
  | IntContext (text : String) : ParseTree
  deriving DecidableEq, Repr

/-- The method `GetText()` of a node. -/
def ParseTree.GetText : ParseTree → String
  | .ErrorNodeImpl text => text
  | .TerminalNodeImpl text => text
  | .PrintExprContext text _ => text
  | .AssignContext text _ _ => text
  | .BlankContext text => text
  | .ParensContext text _ => text
  | .MulDivContext text _ _ _ => text
  | .AddSubContext text _ _ _ => text
  | .IdContext text _ => text
  | .IntContext text => text

/-- Expression trees of the spec (section 3): literal, identifier,
parenthesized, binary operation and error node, with expression trees below
them; no statement node occurs inside. -/
def ParseTree.isExpression : ParseTree → Bool
  | .ErrorNodeImpl _ => true
  | .TerminalNodeImpl _ => false
  | .PrintExprContext _ _ => false
  | .AssignContext _ _ _ => false
  | .BlankContext _ => false
  | .ParensContext _ expr => expr.isExpression
  | .MulDivContext _ left _ right => left.isExpression && right.isExpression
  | .AddSubContext _ left _ right => left.isExpression && right.isExpression
  | .IdContext _ _ => true
  | .IntContext _ => true

/-- Statement trees of the spec, the children of a `Program`: a print
statement or an assignment over an expression tree, a blank statement, or an
error node. -/
def ParseTree.isStatement : ParseTree → Bool
  | .ErrorNodeImpl _ => true
  | .PrintExprContext _ expr => expr.isExpression
  | .AssignContext _ _ expr => expr.isExpression
  | .BlankContext _ => true
  | _ => false

/-! ## The evaluator -/

/-- The Go struct `CalcReturn`. -/
structure CalcReturn where
  Value : Int
  Error : Option GoError
  deriving DecidableEq, Repr

/-- The field `memory map[string]int` of `CalcVisitor`. -/
abbrev Memory := String → Option Int

/-- The map update `memory[id] = value`. -/
def Memory.set (memory : Memory) (id : String) (value : Int) : Memory :=
  fun k => if k = id then some value else memory k

/-- The Go function `NewCalcVisitor`: a visitor with an empty map. -/
def NewCalcVisitor : Memory := fun _ => none

/-- What a call of a visitor method ends in: it returns a `CalcReturn`, or the
goroutine panics with a run-time error. -/
inductive Outcome where
  | ret (cr : CalcReturn) : Outcome
  | panic (msg : String) : Outcome
  deriving DecidableEq, Repr

/-- The message of Go's run-time panic on an integer division by zero. -/
def divideError : String := "runtime error: integer divide by zero"

/-- The method `CalcVisitor.Visit`, with the `Visit*` method that `Accept`
dispatches to inlined in each arm. The result is the outcome together with
the memory afterwards. -/
def Visit (lx : LabeledExprLexer) (memory : Memory) : ParseTree → Outcome × Memory
  -- case *antlr.ErrorNodeImpl
  | .ErrorNodeImpl text =>
    (.ret ⟨0, some (.errorString ("syntax error near '" ++ text ++ "'"))⟩, memory)
  -- Accept returns nil, which is not a CalcReturn
  | .TerminalNodeImpl _ =>
    (.ret ⟨0, some (.errorString "visit result not of type CalcReturn")⟩, memory)
  -- VisitPrintExpr
  | .PrintExprContext _ expr => Visit lx memory expr
  -- VisitAssign
  | .AssignContext text id expr =>
    match Visit lx memory expr with
    | (.panic msg, memory1) => (.panic msg, memory1)
    | (.ret cr, memory1) =>
      match cr.Error with
      | some err =>
        (.ret ⟨0, some (.wrapError
          ("error with assignment '" ++ text ++ "': " ++ err.Error) err)⟩, memory1)
      | none => (.ret cr, memory1.set id cr.Value)
  -- VisitBlank
  | .BlankContext _ => (.ret ⟨0, some .ErrorBlank⟩, memory)
  -- VisitParens
  | .ParensContext _ expr => Visit lx memory expr
  -- VisitMulDiv
  | .MulDivContext _ left operator right =>
    match Visit lx memory left with
    | (.panic msg, memory1) => (.panic msg, memory1)
    | (.ret crLeft, memory1) =>
      match crLeft.Error with
      | some err =>
        (.ret ⟨0, some (.wrapError
          ("error with left side visit '" ++ left.GetText ++ "': " ++ err.Error) err)⟩, memory1)
      | none =>
        match Visit lx memory1 right with
        | (.panic msg, memory2) => (.panic msg, memory2)
        | (.ret crRight, memory2) =>
          match crRight.Error with
          | some err =>
            (.ret ⟨0, some (.wrapError
              ("error with right side visit '" ++ right.GetText ++ "': " ++ err.Error) err)⟩,
              memory2)
          | none =>
            if operator = lx.MUL then
              (.ret ⟨wrapInt (crLeft.Value * crRight.Value), none⟩, memory2)
            else if operator = lx.DIV then
              if crRight.Value = 0 then (.panic divideError, memory2)
              else (.ret ⟨wrapInt (Int.tdiv crLeft.Value crRight.Value), none⟩, memory2)
            else
              (.ret ⟨0, some (.errorString ("wrong operator '" ++ fmtInt operator ++ "'"))⟩,
                memory2)
  -- VisitAddSub
  | .AddSubContext _ left operator right =>
    match Visit lx memory left with
    | (.panic msg, memory1) => (.panic msg, memory1)
    | (.ret crLeft, memory1) =>
      match crLeft.Error with
      | some err =>
        (.ret ⟨0, some (.wrapError
          ("error with left side visit '" ++ left.GetText ++ "': " ++ err.Error) err)⟩, memory1)
      | none =>
        match Visit lx memory1 right with
        | (.panic msg, memory2) => (.panic msg, memory2)
        | (.ret crRight, memory2) =>
          match crRight.Error with
          | some err =>
            (.ret ⟨0, some (.wrapError
              ("error with right side visit '" ++ right.GetText ++ "': " ++ err.Error) err)⟩,
              memory2)
          | none =>
            if operator = lx.ADD then
              (.ret ⟨wrapInt (crLeft.Value + crRight.Value), none⟩, memory2)
            else if operator = lx.SUB then
              (.ret ⟨wrapInt (crLeft.Value - crRight.Value), none⟩, memory2)
            else
              (.ret ⟨0, some (.errorString ("wrong operator '" ++ fmtInt operator ++ "'"))⟩,
                memory2)
  -- VisitId
  | .IdContext _ id =>
    match memory id with
    | some value => (.ret ⟨value, none⟩, memory)
    | none => (.ret ⟨0, some (.errorString ("undefined ID '" ++ id ++ "'"))⟩, memory)
  -- VisitInt
  | .IntContext text =>
    match Atoi text with
    | (_, some err) =>
      (.ret ⟨0, some (.wrapError
        ("couldn't parse integer: '" ++ text ++ "': " ++ err.Error) err)⟩, memory)
    | (i, none) => (.ret ⟨i, none⟩, memory)

/-- One write of the driver to a standard stream. -/
inductive Write where
  | Stdout (s : String) : Write
  | Stderr (s : String) : Write
  deriving DecidableEq, Repr

/-- What `VisitChildren` prints for the `CalcReturn` of one child: nothing for
the blank marker, an `ERROR:` line on the error stream for any other error,
the value after two spaces on standard output otherwise. -/
def report (cr : CalcReturn) : List Write :=
  match cr.Error with
  | some err =>
    if errorsIsErrorBlank err then [] else [.Stderr ("ERROR: " ++ err.Error ++ "\n")]
  | none => [.Stdout ("  " ++ fmtInt cr.Value ++ "\n")]

/-- The echo of a child before it is visited, when the global `echo` is set. -/
def echoOf (echo : Bool) (n : ParseTree) : List Write :=
  if echo then [.Stdout ("> " ++ n.GetText)] else []

/-- The method `CalcVisitor.VisitChildren` over the children of the `prog`
node. The result is the outcome, the memory afterwards and the writes made, in
order; a child that panics ends the loop (and the process). -/
def VisitChildren (lx : LabeledExprLexer) (echo : Bool) :
    Memory → List ParseTree → Outcome × Memory × List Write
  | memory, [] => (.ret ⟨0, none⟩, memory, [])
  | memory, n :: rest =>
    match Visit lx memory n with
    | (.panic msg, memory1) => (.panic msg, memory1, echoOf echo n)
    | (.ret cr, memory1) =>
      match VisitChildren lx echo memory1 rest with
      | (out, memory2, writes) => (out, memory2, echoOf echo n ++ report cr ++ writes)

/-- Token types of a lexer whose grammar declares `MUL`, `DIV`, `ADD`, `SUB`
after three literal tokens, used for concrete evaluations. -/
def sampleLexer : LabeledExprLexer := ⟨4, 5, 6, 7, by decide⟩

/-! ## Concrete trees used in the evaluations below -/

/-- The tree of `1/0`. -/
def oneOverZero : ParseTree :=
  .MulDivContext "1/0" (.IntContext "1") sampleLexer.DIV (.IntContext "0")

/-- The tree of `0-9223372036854775807-1`, whose value is the smallest `int`. -/
def minIntTree : ParseTree :=
  .AddSubContext "0-9223372036854775807-1"
    (.AddSubContext "0-9223372036854775807" (.IntContext "0") sampleLexer.SUB
      (.IntContext "9223372036854775807"))
    sampleLexer.SUB (.IntContext "1")

/-- The tree of `0-1`. -/
def minusOneTree : ParseTree :=
  .AddSubContext "0-1" (.IntContext "0") sampleLexer.SUB (.IntContext "1")

/-- The tree of `(0-9223372036854775807-1)/(0-1)`. -/
def minIntOverMinusOne : ParseTree :=
  .MulDivContext "(0-9223372036854775807-1)/(0-1)"
    (.ParensContext "(0-9223372036854775807-1)" minIntTree) sampleLexer.DIV
    (.ParensContext "(0-1)" minusOneTree)

/-- The tree of the statement `x=x+1`. -/
def incrementX : ParseTree :=
  .AssignContext "x=x+1\n" "x"
    (.AddSubContext "x+1" (.IdContext "x" "x") sampleLexer.ADD (.IntContext "1"))

/-- The tree of the statement `z=3+4`. -/
def assignZ : ParseTree :=
  .AssignContext "z=3+4\n" "z"
    (.AddSubContext "3+4" (.IntContext "3") sampleLexer.ADD (.IntContext "4"))

/-- The program `1/0`, `2`: two print statements. -/
def divideThenTwo : List ParseTree :=
  [.PrintExprContext "1/0\n" oneOverZero, .PrintExprContext "2\n" (.IntContext "2")]

/-- The program `y`, `2`: two print statements, the first over an unbound
identifier. -/
def undefinedThenTwo : List ParseTree :=
  [.PrintExprContext "y\n" (.IdContext "y" "y"), .PrintExprContext "2\n" (.IntContext "2")]

/-! ## Program evaluation as the spec words it -/

/-- The outcomes of a program in the spec's words: the outcome of statement
`i` is the result of evaluating it in the memory left by the statements
before it. -/
def programOutcomes (lx : LabeledExprLexer) : Memory → List ParseTree → List Outcome
  | _, [] => []
  | memory, n :: rest =>
    (Visit lx memory n).1 :: programOutcomes lx (Visit lx memory n).2 rest

/-- The memory a program leaves: each statement runs in the memory left by
the statements before it. -/
def programMemory (lx : LabeledExprLexer) : Memory → List ParseTree → Memory
  | memory, [] => memory
  | memory, n :: rest => programMemory lx (Visit lx memory n).2 rest

/-- Whether a visit returned (it did not panic). -/
def Outcome.returned : Outcome → Bool
  | .ret _ => true
  | .panic _ => false

/-- The number a string of decimal digits denotes. -/
def decimalValue (s : String) : Nat :=
  s.data.foldl (fun acc c => acc * 10 + (c.toNat - '0'.toNat)) 0

/-- A non-empty string of decimal digits. -/
def isDigits (s : String) : Prop :=
  s.data ≠ [] ∧ ∀ c ∈ s.data, '0' ≤ c ∧ c ≤ '9'

instance (s : String) : Decidable (isDigits s) := by
  unfold isDigits; exact inferInstance

/-! ## Trees of the spec's examples, for any token numbering -/

/-- The tree of `(2+3)*4`. -/
def parenthesizedSumTimes (lx : LabeledExprLexer) : ParseTree :=
  .MulDivContext "(2+3)*4"
    (.ParensContext "(2+3)" (.AddSubContext "2+3" (.IntContext "2") lx.ADD (.IntContext "3")))
    lx.MUL (.IntContext "4")

/-- The tree of `2+3*4`: the multiplication is nested under the addition. -/
def sumWithProduct (lx : LabeledExprLexer) : ParseTree :=
  .AddSubContext "2+3*4" (.IntContext "2") lx.ADD
    (.MulDivContext "3*4" (.IntContext "3") lx.MUL (.IntContext "4"))

/-- The statement trees of the lines `x = 5`, `y = x * 2 + 1` and `y`. -/
def endToEnd (lx : LabeledExprLexer) : List ParseTree :=
  [.AssignContext "x=5\n" "x" (.IntContext "5"),
   .AssignContext "y=x*2+1\n" "y"
     (.AddSubContext "x*2+1"
       (.MulDivContext "x*2" (.IdContext "x" "x") lx.MUL (.IntContext "2"))
       lx.ADD (.IntContext "1")),
   .PrintExprContext "y\n" (.IdContext "y" "y")]

/-! ## The driver: `parseInput` and the file mode of `main` -/

/-- Modelled from the spec: the Parser frontend (package `parser` and the
ANTLR runtime) is not among the sources. It is a parameter: for an input text,
the lines its error listener writes and the children of the `prog` node it
builds. -/
structure Frontend where
  Prog : String → List Write × List ParseTree

/-- The function `parseInput`: parse the input and visit the tree, whose root
is the `prog` node (`VisitProg` calls `VisitChildren`). It returns the error
`nil`, unless the visit panics (`Except.error`, with the message). -/
def parseInput (lx : LabeledExprLexer) (frontend : Frontend) (echo : Bool) (memory : Memory)
    (input : String) : Except String (Option GoError) × Memory × List Write :=
  match frontend.Prog input with
  | (diagnostics, children) =>
    match VisitChildren lx echo memory children with
    | (.panic msg, memory1, writes) => (.error msg, memory1, diagnostics ++ writes)
    | (.ret _, memory1, writes) => (.ok none, memory1, diagnostics ++ writes)

/-- How the process ends: `main` returns, `os.Exit` is called, or a panic is
not recovered. -/
inductive ProcessEnd where
  | returned : ProcessEnd
  | exit (status : Nat) : ProcessEnd
  | panic (msg : String) : ProcessEnd
  deriving DecidableEq, Repr

/-- The message of Go's run-time panic on `remaining[0]` when `remaining` is
empty. -/
def indexError : String := "runtime error: index out of range [0] with length 0"

/-- The branch `if opt.Called("file")` of `main` (lines 61 to 72), on a fresh
visitor: `file` is the value of `--file`, `remaining` the arguments
`opt.Parse` left over, `ReadFile` the file system as `ioutil.ReadFile` sees
it. The result is how the process ends and what it wrote. -/
def mainFile (lx : LabeledExprLexer) (frontend : Frontend)
    (ReadFile : String → String × Option GoError) (file : String) (remaining : List String) :
    ProcessEnd × List Write :=
  match ReadFile file with
  | (_, some err) =>
    -- the arguments of Fprintf are evaluated first: remaining[0]
    match remaining with
    | [] => (.panic indexError, [])
    | name :: _ =>
      (.exit 1,
        [.Stderr ("ERROR: failed to read file '" ++ name ++ "': " ++ err.Error ++ "\n")])
  | (contents, none) =>
    match parseInput lx frontend true NewCalcVisitor contents with
    | (.error msg, _, writes) => (.panic msg, writes)
    | (.ok (some err), _, writes) =>
      (.exit 1, writes ++ [.Stderr ("ERROR: " ++ err.Error ++ "\n")])
    | (.ok none, _, writes) => (.returned, writes)

/-- A file system in which no file can be read. -/
def noFiles : String → String × Option GoError :=
  fun name => ("", some (.errorString ("open " ++ name ++ ": no such file or directory")))

/-! ## Lemmas on the token types and on `int` arithmetic -/

theorem LabeledExprLexer.DIV_ne_MUL (lx : LabeledExprLexer) : lx.DIV ≠ lx.MUL := by
  have h := lx.distinct
  simp only [List.nodup_cons, List.mem_cons] at h
  intro e
  exact h.1 (Or.inl e.symm)

theorem LabeledExprLexer.SUB_ne_ADD (lx : LabeledExprLexer) : lx.SUB ≠ lx.ADD := by
  have h := lx.distinct
  simp only [List.nodup_cons, List.mem_cons] at h
  intro e
  exact h.2.2.1 (Or.inl e.symm)

theorem wrapInt_of_inIntRange {x : Int} (h : inIntRange x) : wrapInt x = x := by
  unfold inIntRange minInt maxInt intSize at h
  unfold wrapInt intSize
  norm_num at h ⊢
  omega

theorem natAbs_le_of_inIntRange {x : Int} (h : inIntRange x) : x.natAbs ≤ 2 ^ 63 := by
  unfold inIntRange minInt maxInt intSize at h
  norm_num at h
  omega

/-- The truncated quotient of two `int`s fits an `int`, the quotient of the
smallest `int` by `-1` apart. -/
theorem tdiv_inIntRange {a b : Int} (ha : inIntRange a) (hb : b ≠ 0)
    (hab : ¬ (a = minInt ∧ b = -1)) : inIntRange (Int.tdiv a b) := by
  have hna := natAbs_le_of_inIntRange ha
  have hq : (Int.tdiv a b).natAbs = a.natAbs / b.natAbs := by
    rw [Int.natAbs_tdiv]; rfl
  by_cases h1 : b = 1
  · subst h1; simpa using ha
  by_cases h2 : b = -1
  · subst h2
    have hne : a ≠ minInt := fun e => hab ⟨e, rfl⟩
    have : Int.tdiv a (-1) = -a := by
      rw [Int.tdiv_neg, Int.tdiv_one]
    rw [this]
    unfold inIntRange minInt maxInt intSize at ha ⊢
    unfold minInt intSize at hne
    norm_num at ha hne ⊢
    omega
  · have hb2 : 2 ≤ b.natAbs := by omega
    have hle : a.natAbs / b.natAbs ≤ a.natAbs / 2 :=
      Nat.div_le_div_left hb2 (by decide)
    have hq2 : (Int.tdiv a b).natAbs ≤ 2 ^ 62 := by
      rw [hq]; omega
    unfold inIntRange minInt maxInt intSize
    norm_num
    omega

/-! ## C1: division by zero -/

/-- Dividing by a right operand that evaluates to 0 ends in Go's run-time
panic, whatever the left value is: `VisitMulDiv` has no test of the divisor. -/
theorem VisitMulDiv_zero_divisor (lx : LabeledExprLexer) (memory memory1 memory2 : Memory)
    (text : String) (left right : ParseTree) (a : Int)
    (hl : Visit lx memory left = (.ret ⟨a, none⟩, memory1))
    (hr : Visit lx memory1 right = (.ret ⟨0, none⟩, memory2)) :
    Visit lx memory (.MulDivContext text left lx.DIV right) = (.panic divideError, memory2) := by
  simp [Visit, hl, hr, lx.DIV_ne_MUL]

/-- C1, at the failing input: in a fresh evaluator both operands of `1/0`
evaluate successfully, to 1 and to 0, and the division node does not return
an error outcome (no `CalcReturn` at all): it panics with Go's
`integer divide by zero`. -/
theorem C1_one_over_zero_panics :
    (Visit sampleLexer NewCalcVisitor (.IntContext "1")).1 = .ret ⟨1, none⟩ ∧
    (Visit sampleLexer NewCalcVisitor (.IntContext "0")).1 = .ret ⟨0, none⟩ ∧
    (Visit sampleLexer NewCalcVisitor oneOverZero).1 = .panic divideError ∧
    ∀ cr : CalcReturn, (Visit sampleLexer NewCalcVisitor oneOverZero).1 ≠ .ret cr := by
  refine ⟨by decide, by decide, by decide, ?_⟩
  intro cr h
  have h2 : (Visit sampleLexer NewCalcVisitor oneOverZero).1 = .panic divideError := by decide
  rw [h2] at h
  cases h

/-! ## C2: division by a non-zero value -/

/-- C2, as stated, fails at `(0-9223372036854775807-1)/(0-1)`: the operands
evaluate successfully to the `int`s `-2^63` and `-1`, the quotient truncated
toward zero is `2^63`, and the evaluation yields `-2^63`. -/
theorem C2_min_over_minus_one :
    (Visit sampleLexer NewCalcVisitor (.ParensContext "(0-9223372036854775807-1)" minIntTree)).1
      = .ret ⟨-9223372036854775808, none⟩ ∧
    (Visit sampleLexer NewCalcVisitor (.ParensContext "(0-1)" minusOneTree)).1
      = .ret ⟨-1, none⟩ ∧
    inIntRange (-9223372036854775808) ∧ inIntRange (-1) ∧
    Int.tdiv (-9223372036854775808) (-1) = 9223372036854775808 ∧
    (Visit sampleLexer NewCalcVisitor minIntOverMinusOne).1
      = .ret ⟨-9223372036854775808, none⟩ ∧
    (Visit sampleLexer NewCalcVisitor minIntOverMinusOne).1
      ≠ .ret ⟨Int.tdiv (-9223372036854775808) (-1), none⟩ := by
  refine ⟨by decide, by decide, by decide, by decide, by decide, by decide, by decide⟩

/-- C2, amended: when the operands of a division node evaluate successfully to
`int`s `a` and `b` with `b ≠ 0`, the evaluation succeeds with the quotient
truncated toward zero and reduced to an `int` (Go's native division); this is
the truncated quotient itself unless `a` is the smallest `int` and `b = -1`,
where it is the smallest `int`. -/
theorem C2_division_truncates (lx : LabeledExprLexer) (memory memory1 memory2 : Memory)
    (text : String) (left right : ParseTree) (a b : Int)
    (hl : Visit lx memory left = (.ret ⟨a, none⟩, memory1))
    (hr : Visit lx memory1 right = (.ret ⟨b, none⟩, memory2))
    (ha : inIntRange a) (hb0 : b ≠ 0) :
    Visit lx memory (.MulDivContext text left lx.DIV right)
      = (.ret ⟨wrapInt (Int.tdiv a b), none⟩, memory2) ∧
    (¬ (a = minInt ∧ b = -1) → wrapInt (Int.tdiv a b) = Int.tdiv a b) ∧
    (a = minInt ∧ b = -1 → wrapInt (Int.tdiv a b) = minInt) := by
  refine ⟨by simp [Visit, hl, hr, lx.DIV_ne_MUL, hb0], ?_, ?_⟩
  · intro hab
    exact wrapInt_of_inIntRange (tdiv_inIntRange ha hb0 hab)
  · rintro ⟨rfl, rfl⟩
    decide

/-- C2, amended, at `-7 / 2` and `7 / -2` (both `-3`) and at the smallest
`int` over `-1`. -/
theorem C2_division_truncates_witness :
    (Visit sampleLexer NewCalcVisitor
        (.MulDivContext "(0-7)/2"
          (.ParensContext "(0-7)"
            (.AddSubContext "0-7" (.IntContext "0") sampleLexer.SUB (.IntContext "7")))
          sampleLexer.DIV (.IntContext "2"))
      = (.ret ⟨wrapInt (Int.tdiv (-7) 2), none⟩, NewCalcVisitor) ∧
      (¬ ((-7 : Int) = minInt ∧ (2 : Int) = -1) → wrapInt (Int.tdiv (-7) 2) = Int.tdiv (-7) 2) ∧
      ((-7 : Int) = minInt ∧ (2 : Int) = -1 → wrapInt (Int.tdiv (-7) 2) = minInt)) ∧
    wrapInt (Int.tdiv (-7) 2) = -3 ∧ wrapInt (Int.tdiv 7 (-2)) = -3 := by
  refine ⟨C2_division_truncates sampleLexer NewCalcVisitor NewCalcVisitor NewCalcVisitor
    "(0-7)/2" _ _ (-7) 2 rfl rfl (by decide) (by decide), by decide, by decide⟩

/-! ## Frame lemmas: what evaluation does to the memory -/

/-- Evaluating an expression tree leaves the memory as it was, whatever the
outcome (value, error or panic). -/
theorem Visit_isExpression_memory (lx : LabeledExprLexer) (t : ParseTree) :
    ∀ memory : Memory, t.isExpression = true → (Visit lx memory t).2 = memory := by
  induction t with
  | ErrorNodeImpl text => intro memory _; simp [Visit]
  | TerminalNodeImpl text => intro memory h; simp [ParseTree.isExpression] at h
  | PrintExprContext text expr _ => intro memory h; simp [ParseTree.isExpression] at h
  | AssignContext text id expr _ => intro memory h; simp [ParseTree.isExpression] at h
  | BlankContext text => intro memory h; simp [ParseTree.isExpression] at h
  | ParensContext text expr ih =>
    intro memory h
    simp only [ParseTree.isExpression] at h
    simpa [Visit] using ih memory h
  | MulDivContext text left op right ihl ihr =>
    intro memory h
    simp only [ParseTree.isExpression, Bool.and_eq_true] at h
    have hl := ihl memory h.1
    have hr := ihr memory h.2
    simp only [Visit]
    rcases hL : Visit lx memory left with ⟨oL, mL⟩
    rw [hL] at hl
    simp only at hl
    subst hl
    cases oL with
    | panic msg => rfl
    | ret crL =>
      rcases crL with ⟨vL, eL⟩
      cases eL with
      | some err => rfl
      | none =>
        dsimp only
        rcases hR : Visit lx mL right with ⟨oR, mR⟩
        rw [hR] at hr
        simp only at hr
        subst hr
        cases oR with
        | panic msg => rfl
        | ret crR =>
          rcases crR with ⟨vR, eR⟩
          cases eR with
          | some err => rfl
          | none =>
            simp only
            split
            · rfl
            · split
              · split <;> rfl
              · rfl
  | AddSubContext text left op right ihl ihr =>
    intro memory h
    simp only [ParseTree.isExpression, Bool.and_eq_true] at h
    have hl := ihl memory h.1
    have hr := ihr memory h.2
    simp only [Visit]
    rcases hL : Visit lx memory left with ⟨oL, mL⟩
    rw [hL] at hl
    simp only at hl
    subst hl
    cases oL with
    | panic msg => rfl
    | ret crL =>
      rcases crL with ⟨vL, eL⟩
      cases eL with
      | some err => rfl
      | none =>
        dsimp only
        rcases hR : Visit lx mL right with ⟨oR, mR⟩
        rw [hR] at hr
        simp only at hr
        subst hr
        cases oR with
        | panic msg => rfl
        | ret crR =>
          rcases crR with ⟨vR, eR⟩
          cases eR with
          | some err => rfl
          | none =>
            simp only
            split
            · rfl
            · split <;> rfl
  | IdContext text id =>
    intro memory _
    simp only [Visit]
    cases memory id <;> rfl
  | IntContext text =>
    intro memory _
    simp only [Visit]
    rcases Atoi text with ⟨i, e⟩
    cases e <;> rfl

/-- An outcome and a memory determine the pair `Visit` returns. -/
theorem Visit_eq_of_isExpression (lx : LabeledExprLexer) (memory : Memory) (t : ParseTree)
    (out : Outcome) (ht : t.isExpression = true) (h : (Visit lx memory t).1 = out) :
    Visit lx memory t = (out, memory) := by
  have hm := Visit_isExpression_memory lx t memory ht
  exact Prod.ext h hm

/-! ## C3: assign, then look up -/

/-- C3: when `expr` evaluates successfully to `v`, the assignment `x = expr`
succeeds, and evaluating the bare identifier `x` in the memory it leaves
yields `v` with no error, whether or not `x` was bound before. -/
theorem C3_assign_then_lookup (lx : LabeledExprLexer) (memory memory1 : Memory)
    (text x idText : String) (expr : ParseTree) (v : Int)
    (h : Visit lx memory expr = (.ret ⟨v, none⟩, memory1)) :
    (Visit lx memory (.AssignContext text x expr)).1 = .ret ⟨v, none⟩ ∧
    Visit lx (Visit lx memory (.AssignContext text x expr)).2 (.IdContext idText x)
      = (.ret ⟨v, none⟩, (Visit lx memory (.AssignContext text x expr)).2) := by
  simp [Visit, h, Memory.set]

/-- C3 at `z=3+4` with `z` already bound to 1: the lookup of `z` then yields 7. -/
theorem C3_assign_then_lookup_witness :
    Visit sampleLexer (NewCalcVisitor.set "z" 1)
        (.AddSubContext "3+4" (.IntContext "3") sampleLexer.ADD (.IntContext "4"))
      = (.ret ⟨7, none⟩, NewCalcVisitor.set "z" 1) ∧
    ((Visit sampleLexer (NewCalcVisitor.set "z" 1) assignZ).1 = .ret ⟨7, none⟩ ∧
      Visit sampleLexer (Visit sampleLexer (NewCalcVisitor.set "z" 1) assignZ).2
          (.IdContext "z" "z")
        = (.ret ⟨7, none⟩, (Visit sampleLexer (NewCalcVisitor.set "z" 1) assignZ).2)) :=
  ⟨rfl, C3_assign_then_lookup sampleLexer (NewCalcVisitor.set "z" 1) (NewCalcVisitor.set "z" 1)
    "z=3+4\n" "z" "z" _ 7 rfl⟩

/-! ## C4: identifiers -/

/-- C4: evaluating an identifier node returns the error `undefined ID '<id>'`
exactly when the name is not a key of the memory; when it is a key, the stored
value is returned without error (a stored 0 included), so an unbound name
never evaluates to a value; and in a fresh evaluator every identifier is
undefined. The memory is unchanged in every case. -/
theorem C4_identifier_lookup (lx : LabeledExprLexer) (memory : Memory) (text id : String) :
    ((Visit lx memory (.IdContext text id)).1
        = .ret ⟨0, some (.errorString ("undefined ID '" ++ id ++ "'"))⟩ ↔ memory id = none) ∧
    (∀ v : Int, memory id = some v ↔
      Visit lx memory (.IdContext text id) = (.ret ⟨v, none⟩, memory)) ∧
    (memory id = none ↔ ∀ cr : CalcReturn,
      (Visit lx memory (.IdContext text id)).1 = .ret cr → cr.Error ≠ none) ∧
    Visit lx (memory.set id 0) (.IdContext text id) = (.ret ⟨0, none⟩, memory.set id 0) ∧
    Visit lx NewCalcVisitor (.IdContext text id)
      = (.ret ⟨0, some (.errorString ("undefined ID '" ++ id ++ "'"))⟩, NewCalcVisitor) := by
  refine ⟨?_, ?_, ?_, ?_, ?_⟩
  · cases hm : memory id <;> simp [Visit, hm]
  · intro v
    cases hm : memory id <;> simp [Visit, hm]
  · cases hm : memory id <;> simp [Visit, hm]
  · simp [Visit, Memory.set]
  · simp [Visit, NewCalcVisitor]

/-! ## C5: a failed assignment -/

/-- C5: when the right-hand expression of an assignment evaluates to an error
`e`, the outcome is the error `error with assignment '<text>': <e>` that names
the full text of the assignment and wraps `e`, and the memory afterwards is
the memory before. -/
theorem C5_failed_assignment_is_atomic (lx : LabeledExprLexer) (memory : Memory)
    (text id : String) (expr : ParseTree) (val : Int) (e : GoError)
    (hexpr : expr.isExpression = true)
    (h : (Visit lx memory expr).1 = .ret ⟨val, some e⟩) :
    Visit lx memory (.AssignContext text id expr)
      = (.ret ⟨0, some (.wrapError ("error with assignment '" ++ text ++ "': " ++ e.Error) e)⟩,
          memory) := by
  have h2 := Visit_eq_of_isExpression lx memory expr _ hexpr h
  simp [Visit, h2]

/-- C5 at `x=x+1` with `x` unbound: the assignment fails and `x` stays
unbound. -/
theorem C5_failed_assignment_is_atomic_witness :
    (Visit sampleLexer NewCalcVisitor
        (.AddSubContext "x+1" (.IdContext "x" "x") sampleLexer.ADD (.IntContext "1"))).1
      = .ret ⟨0, some (.wrapError "error with left side visit 'x': undefined ID 'x'"
          (.errorString "undefined ID 'x'"))⟩ ∧
    Visit sampleLexer NewCalcVisitor incrementX
      = (.ret ⟨0, some (.wrapError
          ("error with assignment '" ++ "x=x+1\n" ++ "': " ++
            (GoError.wrapError "error with left side visit 'x': undefined ID 'x'"
              (.errorString "undefined ID 'x'")).Error)
          (.wrapError "error with left side visit 'x': undefined ID 'x'"
            (.errorString "undefined ID 'x'")))⟩, NewCalcVisitor) ∧
    (Visit sampleLexer NewCalcVisitor incrementX).2 "x" = none :=
  ⟨by decide,
   C5_failed_assignment_is_atomic sampleLexer NewCalcVisitor "x=x+1\n" "x" _ 0 _
    (by decide) (by decide),
   by decide⟩

/-! ## C6: a successful assignment -/

/-- C6: when `expr` evaluates successfully to `v`, the assignment `x = expr`
yields exactly `v` as its own outcome, binds `x` to `v`, and leaves every
other identifier as it was (bound to the same value, or unbound). -/
theorem C6_successful_assignment (lx : LabeledExprLexer) (memory : Memory)
    (text x : String) (expr : ParseTree) (v : Int)
    (hexpr : expr.isExpression = true)
    (h : (Visit lx memory expr).1 = .ret ⟨v, none⟩) :
    (Visit lx memory (.AssignContext text x expr)).1 = .ret ⟨v, none⟩ ∧
    (Visit lx memory (.AssignContext text x expr)).2 x = some v ∧
    ∀ y : String, y ≠ x → (Visit lx memory (.AssignContext text x expr)).2 y = memory y := by
  have h2 := Visit_eq_of_isExpression lx memory expr _ hexpr h
  refine ⟨by simp [Visit, h2], by simp [Visit, h2, Memory.set], ?_⟩
  intro y hy
  simp [Visit, h2, Memory.set, hy]

/-- C6 at `z=3+4` in a memory that binds `z` to 1 and `w` to 2: the outcome is
7, `z` is 7 afterwards, and every other identifier is as before. -/
theorem C6_successful_assignment_witness :
    (Visit sampleLexer ((NewCalcVisitor.set "z" 1).set "w" 2) assignZ).1 = .ret ⟨7, none⟩ ∧
    (Visit sampleLexer ((NewCalcVisitor.set "z" 1).set "w" 2) assignZ).2 "z" = some 7 ∧
    ∀ y : String, y ≠ "z" →
      (Visit sampleLexer ((NewCalcVisitor.set "z" 1).set "w" 2) assignZ).2 y
        = ((NewCalcVisitor.set "z" 1).set "w" 2) y :=
  C6_successful_assignment sampleLexer ((NewCalcVisitor.set "z" 1).set "w" 2) "z=3+4\n" "z" _ 7
    (by decide) (by decide)

/-! ## C7 and C8: a failing operand -/

/-- C7: when the left operand of a binary operation node (mul/div or add/sub)
evaluates to an error `e`, the result is the error
`error with left side visit '<left text>': <e>`, naming the source text of the
left subtree and wrapping `e`, in the memory the left operand left; it is the
same for every right subtree, operator and node text, so the right subtree
plays no part in it. -/
theorem C7_left_failure_short_circuits (lx : LabeledExprLexer) (memory memory1 : Memory)
    (text : String) (left right : ParseTree) (op : Int) (val : Int) (e : GoError)
    (h : Visit lx memory left = (.ret ⟨val, some e⟩, memory1)) :
    Visit lx memory (.MulDivContext text left op right)
      = (.ret ⟨0, some (.wrapError
          ("error with left side visit '" ++ left.GetText ++ "': " ++ e.Error) e)⟩, memory1) ∧
    Visit lx memory (.AddSubContext text left op right)
      = (.ret ⟨0, some (.wrapError
          ("error with left side visit '" ++ left.GetText ++ "': " ++ e.Error) e)⟩, memory1) ∧
    (∀ (text2 : String) (op2 : Int) (right2 : ParseTree),
      Visit lx memory (.MulDivContext text2 left op2 right2)
        = Visit lx memory (.MulDivContext text left op right) ∧
      Visit lx memory (.AddSubContext text2 left op2 right2)
        = Visit lx memory (.AddSubContext text left op right)) := by
  refine ⟨by simp [Visit, h], by simp [Visit, h], ?_⟩
  intro text2 op2 right2
  simp [Visit, h]

/-- C7 at `y/(1/0)` and `y+(1/0)` with `y` unbound: the right subtree, which
would panic if it were evaluated, is not reached. -/
theorem C7_left_failure_short_circuits_witness :
    Visit sampleLexer NewCalcVisitor (.IdContext "y" "y")
      = (.ret ⟨0, some (.errorString "undefined ID 'y'")⟩, NewCalcVisitor) ∧
    (Visit sampleLexer NewCalcVisitor oneOverZero).1 = .panic divideError ∧
    (Visit sampleLexer NewCalcVisitor
        (.MulDivContext "y/(1/0)" (.IdContext "y" "y") sampleLexer.DIV oneOverZero)
      = (.ret ⟨0, some (.wrapError
          ("error with left side visit '" ++ (ParseTree.IdContext "y" "y").GetText ++ "': " ++
            (GoError.errorString "undefined ID 'y'").Error)
          (.errorString "undefined ID 'y'"))⟩, NewCalcVisitor) ∧
    Visit sampleLexer NewCalcVisitor
        (.AddSubContext "y/(1/0)" (.IdContext "y" "y") sampleLexer.DIV oneOverZero)
      = (.ret ⟨0, some (.wrapError
          ("error with left side visit '" ++ (ParseTree.IdContext "y" "y").GetText ++ "': " ++
            (GoError.errorString "undefined ID 'y'").Error)
          (.errorString "undefined ID 'y'"))⟩, NewCalcVisitor)) :=
  ⟨rfl, by decide,
   (C7_left_failure_short_circuits sampleLexer NewCalcVisitor NewCalcVisitor "y/(1/0)"
      (.IdContext "y" "y") oneOverZero sampleLexer.DIV 0 _ rfl).1,
   (C7_left_failure_short_circuits sampleLexer NewCalcVisitor NewCalcVisitor "y/(1/0)"
      (.IdContext "y" "y") oneOverZero sampleLexer.DIV 0 _ rfl).2.1⟩

/-- C8: when the left operand of a binary operation node evaluates
successfully and the right operand evaluates to an error `e`, the result is
the error `error with right side visit '<right text>': <e>`, naming the source
text of the right subtree and wrapping `e`; its value field is 0 whatever the
left value and the operator are, so the operator is not applied. -/
theorem C8_right_failure (lx : LabeledExprLexer) (memory memory1 memory2 : Memory)
    (text : String) (left right : ParseTree) (op : Int) (a val : Int) (e : GoError)
    (hl : Visit lx memory left = (.ret ⟨a, none⟩, memory1))
    (hr : Visit lx memory1 right = (.ret ⟨val, some e⟩, memory2)) :
    Visit lx memory (.MulDivContext text left op right)
      = (.ret ⟨0, some (.wrapError
          ("error with right side visit '" ++ right.GetText ++ "': " ++ e.Error) e)⟩, memory2) ∧
    Visit lx memory (.AddSubContext text left op right)
      = (.ret ⟨0, some (.wrapError
          ("error with right side visit '" ++ right.GetText ++ "': " ++ e.Error) e)⟩, memory2) := by
  refine ⟨by simp [Visit, hl, hr], by simp [Visit, hl, hr]⟩

/-- C8 at `5/y` and `5/y` read as an add/sub node, with `y` unbound. -/
theorem C8_right_failure_witness :
    Visit sampleLexer NewCalcVisitor (.IntContext "5") = (.ret ⟨5, none⟩, NewCalcVisitor) ∧
    Visit sampleLexer NewCalcVisitor (.IdContext "y" "y")
      = (.ret ⟨0, some (.errorString "undefined ID 'y'")⟩, NewCalcVisitor) ∧
    (Visit sampleLexer NewCalcVisitor
        (.MulDivContext "5/y" (.IntContext "5") sampleLexer.DIV (.IdContext "y" "y"))
      = (.ret ⟨0, some (.wrapError
          ("error with right side visit '" ++ (ParseTree.IdContext "y" "y").GetText ++ "': " ++
            (GoError.errorString "undefined ID 'y'").Error)
          (.errorString "undefined ID 'y'"))⟩, NewCalcVisitor) ∧
    Visit sampleLexer NewCalcVisitor
        (.AddSubContext "5/y" (.IntContext "5") sampleLexer.DIV (.IdContext "y" "y"))
      = (.ret ⟨0, some (.wrapError
          ("error with right side visit '" ++ (ParseTree.IdContext "y" "y").GetText ++ "': " ++
            (GoError.errorString "undefined ID 'y'").Error)
          (.errorString "undefined ID 'y'"))⟩, NewCalcVisitor)) :=
  ⟨rfl, rfl,
   C8_right_failure sampleLexer NewCalcVisitor NewCalcVisitor NewCalcVisitor "5/y"
     (.IntContext "5") (.IdContext "y" "y") sampleLexer.DIV 5 0 _ rfl rfl⟩

/-! ## C9: program evaluation -/

/-- C9, at the failing input: in the program `1/0`, `2` (echo on, as in file
mode) the first statement panics, so `VisitChildren` ends there with only the
echo of the first statement written; the outcome `  2` of the second
statement is never produced, although the statement alone evaluates to 2.
When the first statement fails with an error instead (`y` unbound), the
second statement is evaluated and reported. -/
theorem C9_division_by_zero_stops_the_program :
    (VisitChildren sampleLexer true NewCalcVisitor divideThenTwo).1 = .panic divideError ∧
    (VisitChildren sampleLexer true NewCalcVisitor divideThenTwo).2.2
      = [.Stdout "> 1/0\n"] ∧
    (Visit sampleLexer NewCalcVisitor (.PrintExprContext "2\n" (.IntContext "2"))).1
      = .ret ⟨2, none⟩ ∧
    programOutcomes sampleLexer NewCalcVisitor divideThenTwo
      = [.panic divideError, .ret ⟨2, none⟩] ∧
    (VisitChildren sampleLexer true NewCalcVisitor undefinedThenTwo).2.2
      = [.Stdout "> y\n", .Stderr "ERROR: undefined ID 'y'\n", .Stdout "> 2\n",
          .Stdout "  2\n"] := by
  refine ⟨by decide, by decide, by decide, by decide, by decide⟩

/-! ## C10: only a successful assignment changes the memory -/

/-- C10: evaluating an expression tree (literal, identifier, parenthesized,
binary operation, error node), or a print statement wrapping it, leaves the
memory as it was, whatever the outcome; and a statement after which the memory
differs is an assignment whose expression evaluated successfully, the memory
then being the old one with the assigned identifier set to the value. -/
theorem C10_expressions_leave_memory (lx : LabeledExprLexer) (memory : Memory)
    (text : String) (expr : ParseTree) (hexpr : expr.isExpression = true) :
    (Visit lx memory expr).2 = memory ∧
    (Visit lx memory (.PrintExprContext text expr)).2 = memory ∧
    (∀ stat : ParseTree, stat.isStatement = true → (Visit lx memory stat).2 ≠ memory →
      ∃ (t id : String) (e : ParseTree) (v : Int),
        stat = .AssignContext t id e ∧ Visit lx memory e = (.ret ⟨v, none⟩, memory) ∧
        Visit lx memory stat = (.ret ⟨v, none⟩, memory.set id v)) := by
  refine ⟨Visit_isExpression_memory lx expr memory hexpr,
    by simpa [Visit] using Visit_isExpression_memory lx expr memory hexpr, ?_⟩
  intro stat hstat hne
  cases stat with
  | ErrorNodeImpl t => simp [Visit] at hne
  | TerminalNodeImpl t => simp [ParseTree.isStatement] at hstat
  | PrintExprContext t e =>
    simp only [ParseTree.isStatement] at hstat
    exact absurd (by simpa [Visit] using Visit_isExpression_memory lx e memory hstat) hne
  | AssignContext t id e =>
    simp only [ParseTree.isStatement] at hstat
    have hm := Visit_isExpression_memory lx e memory hstat
    rcases hv : Visit lx memory e with ⟨o, m1⟩
    rw [hv] at hm
    simp only at hm
    subst hm
    cases o with
    | panic msg => simp [Visit, hv] at hne
    | ret cr =>
      rcases cr with ⟨v, err⟩
      cases err with
      | some err => simp [Visit, hv] at hne
      | none => exact ⟨t, id, e, v, rfl, hv, by simp [Visit, hv]⟩
  | BlankContext t => simp [Visit] at hne
  | ParensContext t e => simp [ParseTree.isStatement] at hstat
  | MulDivContext t l op r => simp [ParseTree.isStatement] at hstat
  | AddSubContext t l op r => simp [ParseTree.isStatement] at hstat
  | IdContext t id => simp [ParseTree.isStatement] at hstat
  | IntContext t => simp [ParseTree.isStatement] at hstat

/-- C10 at the expression `(x+1)*2` in a memory binding `x` to 3, and at the
assignment `z=3+4`, the statement that does change the memory. -/
theorem C10_expressions_leave_memory_witness :
    ((Visit sampleLexer (NewCalcVisitor.set "x" 3)
        (.MulDivContext "(x+1)*2"
          (.ParensContext "(x+1)"
            (.AddSubContext "x+1" (.IdContext "x" "x") sampleLexer.ADD (.IntContext "1")))
          sampleLexer.MUL (.IntContext "2"))).1 = .ret ⟨8, none⟩) ∧
    ((Visit sampleLexer (NewCalcVisitor.set "x" 3)
        (.MulDivContext "(x+1)*2"
          (.ParensContext "(x+1)"
            (.AddSubContext "x+1" (.IdContext "x" "x") sampleLexer.ADD (.IntContext "1")))
          sampleLexer.MUL (.IntContext "2"))).2 = NewCalcVisitor.set "x" 3) ∧
    ((Visit sampleLexer (NewCalcVisitor.set "x" 3) assignZ).2 "z" = some 7) :=
  ⟨by decide,
   (C10_expressions_leave_memory sampleLexer (NewCalcVisitor.set "x" 3) "(x+1)*2\n"
      (.MulDivContext "(x+1)*2"
        (.ParensContext "(x+1)"
          (.AddSubContext "x+1" (.IdContext "x" "x") sampleLexer.ADD (.IntContext "1")))
        sampleLexer.MUL (.IntContext "2")) (by decide)).1,
   by decide⟩

/-! ## C11 and C12: the blank outcome -/

/-- C11: a blank statement evaluates, in every memory, to the blank marker
(`ErrorBlank`, which the test of the driver recognises) and leaves the memory
as it was; the driver writes no value line and no `ERROR:` line for it: alone
and with echo off nothing at all is written, and in a program it adds nothing
but its echo to what the rest of the program writes. -/
theorem C11_blank_statement (lx : LabeledExprLexer) (memory : Memory) (text : String)
    (echo : Bool) (rest : List ParseTree) :
    Visit lx memory (.BlankContext text) = (.ret ⟨0, some .ErrorBlank⟩, memory) ∧
    errorsIsErrorBlank .ErrorBlank = true ∧
    report ⟨0, some .ErrorBlank⟩ = [] ∧
    VisitChildren lx false memory [.BlankContext text] = (.ret ⟨0, none⟩, memory, []) ∧
    VisitChildren lx echo memory (.BlankContext text :: rest)
      = ((VisitChildren lx echo memory rest).1, (VisitChildren lx echo memory rest).2.1,
          echoOf echo (.BlankContext text) ++ (VisitChildren lx echo memory rest).2.2) := by
  refine ⟨rfl, rfl, rfl, rfl, ?_⟩
  simp [VisitChildren, Visit, report, errorsIsErrorBlank]

/-- The errors of `strconv.Atoi` do not contain the blank marker. -/
theorem Atoi_error_not_blank (s : String) (i : Int) (err : GoError)
    (h : Atoi s = (i, some err)) : errorsIsErrorBlank err = false := by
  unfold Atoi at h
  simp only at h
  split at h
  · cases h; rfl
  · split at h
    · cases h; rfl
    · split_ifs at h <;> first | (cases h; rfl) | cases h

/-- No error that the evaluation of an expression tree returns contains the
blank marker. -/
theorem Visit_isExpression_not_blank (lx : LabeledExprLexer) (t : ParseTree) :
    ∀ (memory : Memory) (cr : CalcReturn) (err : GoError), t.isExpression = true →
      (Visit lx memory t).1 = .ret cr → cr.Error = some err →
      errorsIsErrorBlank err = false := by
  induction t with
  | ErrorNodeImpl text =>
    intro memory cr err _ h he
    simp only [Visit, Outcome.ret.injEq] at h
    subst h
    simp only [Option.some.injEq] at he
    subst he
    rfl
  | TerminalNodeImpl text => intro memory cr err h; simp [ParseTree.isExpression] at h
  | PrintExprContext text expr _ => intro memory cr err h; simp [ParseTree.isExpression] at h
  | AssignContext text id expr _ => intro memory cr err h; simp [ParseTree.isExpression] at h
  | BlankContext text => intro memory cr err h; simp [ParseTree.isExpression] at h
  | ParensContext text expr ih =>
    intro memory cr err h hv he
    simp only [ParseTree.isExpression] at h
    simp only [Visit] at hv
    exact ih memory cr err h hv he
  | MulDivContext text left op right ihl ihr =>
    intro memory cr err h hv he
    simp only [ParseTree.isExpression, Bool.and_eq_true] at h
    simp only [Visit] at hv
    rcases hL : Visit lx memory left with ⟨oL, mL⟩
    rw [hL] at hv
    cases oL with
    | panic msg => simp at hv
    | ret crL =>
      rcases crL with ⟨vL, eL⟩
      cases eL with
      | some errL =>
        simp only [Outcome.ret.injEq] at hv
        subst hv
        simp only [Option.some.injEq] at he
        subst he
        have := ihl memory ⟨vL, some errL⟩ errL h.1 (by rw [hL]) rfl
        simpa [errorsIsErrorBlank] using this
      | none =>
        dsimp only at hv
        rcases hR : Visit lx mL right with ⟨oR, mR⟩
        rw [hR] at hv
        cases oR with
        | panic msg => simp at hv
        | ret crR =>
          rcases crR with ⟨vR, eR⟩
          cases eR with
          | some errR =>
            simp only [Outcome.ret.injEq] at hv
            subst hv
            simp only [Option.some.injEq] at he
            subst he
            have := ihr mL ⟨vR, some errR⟩ errR h.2 (by rw [hR]) rfl
            simpa [errorsIsErrorBlank] using this
          | none =>
            dsimp only at hv
            split at hv
            · simp only [Outcome.ret.injEq] at hv
              subst hv
              simp at he
            · split at hv
              · split at hv
                · simp at hv
                · simp only [Outcome.ret.injEq] at hv
                  subst hv
                  simp at he
              · simp only [Outcome.ret.injEq] at hv
                subst hv
                simp only [Option.some.injEq] at he
                subst he
                rfl
  | AddSubContext text left op right ihl ihr =>
    intro memory cr err h hv he
    simp only [ParseTree.isExpression, Bool.and_eq_true] at h
    simp only [Visit] at hv
    rcases hL : Visit lx memory left with ⟨oL, mL⟩
    rw [hL] at hv
    cases oL with
    | panic msg => simp at hv
    | ret crL =>
      rcases crL with ⟨vL, eL⟩
      cases eL with
      | some errL =>
        simp only [Outcome.ret.injEq] at hv
        subst hv
        simp only [Option.some.injEq] at he
        subst he
        have := ihl memory ⟨vL, some errL⟩ errL h.1 (by rw [hL]) rfl
        simpa [errorsIsErrorBlank] using this
      | none =>
        dsimp only at hv
        rcases hR : Visit lx mL right with ⟨oR, mR⟩
        rw [hR] at hv
        cases oR with
        | panic msg => simp at hv
        | ret crR =>
          rcases crR with ⟨vR, eR⟩
          cases eR with
          | some errR =>
            simp only [Outcome.ret.injEq] at hv
            subst hv
            simp only [Option.some.injEq] at he
            subst he
            have := ihr mL ⟨vR, some errR⟩ errR h.2 (by rw [hR]) rfl
            simpa [errorsIsErrorBlank] using this
          | none =>
            dsimp only at hv
            split at hv
            · simp only [Outcome.ret.injEq] at hv
              subst hv
              simp at he
            · split at hv
              · simp only [Outcome.ret.injEq] at hv
                subst hv
                simp at he
              · simp only [Outcome.ret.injEq] at hv
                subst hv
                simp only [Option.some.injEq] at he
                subst he
                rfl
  | IdContext text id =>
    intro memory cr err _ hv he
    simp only [Visit] at hv
    cases hm : memory id with
    | some v =>
      rw [hm] at hv
      simp only [Outcome.ret.injEq] at hv
      subst hv
      simp at he
    | none =>
      rw [hm] at hv
      simp only [Outcome.ret.injEq] at hv
      subst hv
      simp only [Option.some.injEq] at he
      subst he
      rfl
  | IntContext text =>
    intro memory cr err _ hv he
    simp only [Visit] at hv
    rcases ha : Atoi text with ⟨i, e⟩
    rw [ha] at hv
    cases e with
    | some errA =>
      simp only [Outcome.ret.injEq] at hv
      subst hv
      simp only [Option.some.injEq] at he
      subst he
      have := Atoi_error_not_blank text i errA ha
      simpa [errorsIsErrorBlank] using this
    | none =>
      simp only [Outcome.ret.injEq] at hv
      subst hv
      simp at he

/-- C12: for every statement that is not a blank statement (a print statement
or an assignment over an expression tree, or an error node) and every memory,
the outcome is not classified as blank by the driver: when it carries an
error, the test `errors.Is(err, ErrorBlank)` on it is false (so no error built
or wrapped by literal, identifier, binary-operation, assignment or
syntax-error evaluation is swallowed), and the driver writes a line for the
outcome. -/
theorem C12_blank_is_distinguishable (lx : LabeledExprLexer) (memory : Memory)
    (stat : ParseTree) (cr : CalcReturn)
    (hstat : stat.isStatement = true) (hnb : ∀ text : String, stat ≠ .BlankContext text)
    (h : (Visit lx memory stat).1 = .ret cr) :
    (∀ err : GoError, cr.Error = some err → errorsIsErrorBlank err = false) ∧
    report cr ≠ [] := by
  have key : ∀ err : GoError, cr.Error = some err → errorsIsErrorBlank err = false := by
    intro err he
    cases stat with
    | ErrorNodeImpl t =>
      simp only [Visit, Outcome.ret.injEq] at h
      subst h
      simp only [Option.some.injEq] at he
      subst he
      rfl
    | TerminalNodeImpl t => simp [ParseTree.isStatement] at hstat
    | PrintExprContext t e =>
      simp only [ParseTree.isStatement] at hstat
      simp only [Visit] at h
      exact Visit_isExpression_not_blank lx e memory cr err hstat h he
    | AssignContext t id e =>
      simp only [ParseTree.isStatement] at hstat
      simp only [Visit] at h
      rcases hv : Visit lx memory e with ⟨o, m1⟩
      rw [hv] at h
      cases o with
      | panic msg => simp at h
      | ret cre =>
        rcases cre with ⟨v, ee⟩
        cases ee with
        | some erre =>
          simp only [Outcome.ret.injEq] at h
          subst h
          simp only [Option.some.injEq] at he
          subst he
          have := Visit_isExpression_not_blank lx e memory ⟨v, some erre⟩ erre hstat
            (by rw [hv]) rfl
          simpa [errorsIsErrorBlank] using this
        | none =>
          simp only [Outcome.ret.injEq] at h
          subst h
          simp at he
    | BlankContext t => exact absurd rfl (hnb t)
    | ParensContext t e => simp [ParseTree.isStatement] at hstat
    | MulDivContext t l op r => simp [ParseTree.isStatement] at hstat
    | AddSubContext t l op r => simp [ParseTree.isStatement] at hstat
    | IdContext t id => simp [ParseTree.isStatement] at hstat
    | IntContext t => simp [ParseTree.isStatement] at hstat
  refine ⟨key, ?_⟩
  rcases cr with ⟨v, e⟩
  cases e with
  | none => simp [report]
  | some err => simp [report, key err rfl]

/-- C12 at the assignment `x=y/2` with `y` unbound: the error, an undefined
identifier wrapped twice, is not the blank marker and is reported. -/
theorem C12_blank_is_distinguishable_witness :
    (Visit sampleLexer NewCalcVisitor
        (.AssignContext "x=y/2\n" "x"
          (.MulDivContext "y/2" (.IdContext "y" "y") sampleLexer.DIV (.IntContext "2")))).1
      = .ret ⟨0, some (.wrapError
          "error with assignment 'x=y/2\n': error with left side visit 'y': undefined ID 'y'"
          (.wrapError "error with left side visit 'y': undefined ID 'y'"
            (.errorString "undefined ID 'y'")))⟩ ∧
    ((∀ err : GoError,
        (CalcReturn.mk 0 (some (.wrapError
          "error with assignment 'x=y/2\n': error with left side visit 'y': undefined ID 'y'"
          (.wrapError "error with left side visit 'y': undefined ID 'y'"
            (.errorString "undefined ID 'y'"))))).Error = some err →
        errorsIsErrorBlank err = false) ∧
      report (CalcReturn.mk 0 (some (.wrapError
          "error with assignment 'x=y/2\n': error with left side visit 'y': undefined ID 'y'"
          (.wrapError "error with left side visit 'y': undefined ID 'y'"
            (.errorString "undefined ID 'y'"))))) ≠ []) :=
  ⟨by decide,
   C12_blank_is_distinguishable sampleLexer NewCalcVisitor
    (.AssignContext "x=y/2\n" "x"
      (.MulDivContext "y/2" (.IdContext "y" "y") sampleLexer.DIV (.IntContext "2")))
    _ (by decide) (fun _ h => ParseTree.noConfusion h) (by decide)⟩

/-! ## C13: pass-through nodes -/

/-- C13: a parenthesized node and a print statement evaluate exactly as the
expression they wrap, in every memory: same outcome (the same value, or the
identical error, not wrapped) and same memory afterwards. The tree of
`(2+3)*4` evaluates to 20 and the tree of `2+3*4` to 14. -/
theorem C13_pass_through (lx : LabeledExprLexer) (memory : Memory) (text : String)
    (expr : ParseTree) :
    Visit lx memory (.ParensContext text expr) = Visit lx memory expr ∧
    Visit lx memory (.PrintExprContext text expr) = Visit lx memory expr ∧
    Visit lx memory (parenthesizedSumTimes lx) = (.ret ⟨20, none⟩, memory) ∧
    Visit lx memory (sumWithProduct lx) = (.ret ⟨14, none⟩, memory) := by
  have h2 : Atoi "2" = (2, none) := by decide
  have h3 : Atoi "3" = (3, none) := by decide
  have h4 : Atoi "4" = (4, none) := by decide
  have w5 : wrapInt 5 = 5 := by decide
  have w12 : wrapInt 12 = 12 := by decide
  have w14 : wrapInt 14 = 14 := by decide
  have w20 : wrapInt 20 = 20 := by decide
  refine ⟨by simp only [Visit], by simp only [Visit], ?_, ?_⟩
  · simp [parenthesizedSumTimes, Visit, h2, h3, h4, w5, w20]
  · simp [sumWithProduct, Visit, h2, h3, h4, w12, w14]

/-! ## C14: integer literals -/

/-- On a run of digits `parseDigits` returns its positional value. -/
theorem parseDigits_of_digits (cs : List Char) :
    ∀ acc : Nat, (∀ c ∈ cs, '0' ≤ c ∧ c ≤ '9') →
      parseDigits acc cs = some (cs.foldl (fun a c => a * 10 + (c.toNat - '0'.toNat)) acc) := by
  induction cs with
  | nil => intro acc _; rfl
  | cons c cs ih =>
    intro acc h
    have hc := h c (List.mem_cons_self c cs)
    simp only [parseDigits, hc, and_self, if_true, List.foldl_cons]
    exact ih _ (fun d hd => h d (List.mem_cons_of_mem c hd))

/-- A text of digits has no sign for `Atoi` to strip. -/
theorem signOf_digits (l : List Char) :
    (∀ c ∈ l, '0' ≤ c ∧ c ≤ '9') →
    (match l with
      | '-' :: cs => (true, cs)
      | '+' :: cs => (false, cs)
      | cs => (false, cs)) = (false, l) := by
  intro h
  split
  · exact absurd (h '-' (List.mem_cons_self _ _)).1 (by decide)
  · exact absurd (h '+' (List.mem_cons_self _ _)).1 (by decide)
  · rfl

/-- `Atoi` on a non-empty string of digits: its number when it fits an `int`,
a range error otherwise. -/
theorem Atoi_of_isDigits (s : String) (h : isDigits s) :
    Atoi s = if (decimalValue s : Int) ≤ maxInt then ((decimalValue s : Int), none)
      else (maxInt, some (.NumError "Atoi" s ErrRange)) := by
  obtain ⟨hne, hd⟩ := h
  have hp := parseDigits_of_digits s.data 0 hd
  unfold Atoi
  simp only [signOf_digits s.data hd, hp, decimalValue, Bool.false_eq_true, if_false]
  have hmin : ¬ ((List.foldl (fun a c => a * 10 + (c.toNat - '0'.toNat)) 0 s.data : Nat) : Int)
      < minInt := by
    have : minInt < 0 := by decide
    omega
  simp only [hmin, if_false]
  split_ifs with h1 h2 h2
  · omega
  · rfl
  · rfl
  · omega


/-- A digit is not escaped by `strconv.Quote`. -/
theorem quoteChar_of_digit (c : Char) (h : '0' ≤ c ∧ c ≤ '9') : quoteChar c = [c] := by
  have h1 : 48 ≤ c.toNat := h.1
  have h2 : c.toNat ≤ 57 := h.2
  have e1 : c ≠ '"' := by rintro rfl; exact absurd h1 (by decide)
  have e2 : c ≠ '\\' := by rintro rfl; exact absurd h2 (by decide)
  have e3 : c ≠ '\n' := by rintro rfl; exact absurd h1 (by decide)
  have e4 : c ≠ '\r' := by rintro rfl; exact absurd h1 (by decide)
  have e5 : c ≠ '\t' := by rintro rfl; exact absurd h1 (by decide)
  unfold quoteChar
  simp only [e1, e2, e3, e4, e5, if_false]
  have n1 : ¬ c.toNat = 7 := by omega
  have n2 : ¬ c.toNat = 8 := by omega
  have n3 : ¬ c.toNat = 12 := by omega
  have n4 : ¬ c.toNat = 11 := by omega
  have n5 : ¬ (c.toNat < 32 ∨ c.toNat = 127) := by omega
  simp only [n1, n2, n3, n4, n5, if_false]

/-- Quoting a string of digits puts it between double quotes. -/
theorem Quote_of_isDigits (s : String) (h : isDigits s) : Quote s = "\"" ++ s ++ "\"" := by
  have hf : ∀ l : List Char, (∀ c ∈ l, '0' ≤ c ∧ c ≤ '9') → l.flatMap quoteChar = l := by
    intro l
    induction l with
    | nil => intro _; rfl
    | cons c cs ih =>
      intro hl
      rw [List.flatMap_cons, quoteChar_of_digit c (hl c (List.mem_cons_self _ _)),
        ih (fun d hd => hl d (List.mem_cons_of_mem _ hd))]
      rfl
  apply String.ext
  simp [Quote, hf s.data h.2]

/-- The message of the range error of `Atoi` on a string of digits. -/
theorem NumError_range_message (s : String) (h : isDigits s) :
    (GoError.NumError "Atoi" s ErrRange).Error
      = "strconv.Atoi: parsing \"" ++ s ++ "\": value out of range" := by
  apply String.ext
  simp [GoError.Error, Quote_of_isDigits s h, ErrRange]

/-- C14: for a non-empty string `s` of decimal digits (leading zeros allowed),
the literal node evaluates to the number `s` denotes when that number is at
most `2^63 - 1`, and otherwise to the error
`couldn't parse integer: '<s>': strconv.Atoi: parsing "<s>": value out of range`,
which names `s` and wraps the range error of `Atoi`; the memory plays no part
in the result and is left as it was. -/
theorem C14_integer_literal (lx : LabeledExprLexer) (memory : Memory) (s : String)
    (h : isDigits s) :
    ((decimalValue s : Int) ≤ maxInt →
      Visit lx memory (.IntContext s) = (.ret ⟨(decimalValue s : Int), none⟩, memory)) ∧
    (maxInt < (decimalValue s : Int) →
      Visit lx memory (.IntContext s)
        = (.ret ⟨0, some (.wrapError
            ("couldn't parse integer: '" ++ s ++ "': "
              ++ ("strconv.Atoi: parsing \"" ++ s ++ "\": value out of range"))
            (.NumError "Atoi" s ErrRange))⟩, memory)) ∧
    maxInt = 2 ^ 63 - 1 := by
  refine ⟨?_, ?_, by decide⟩
  · intro hle
    simp [Visit, Atoi_of_isDigits s h, hle]
  · intro hgt
    have hn : ¬ (decimalValue s : Int) ≤ maxInt := by omega
    simp only [Visit, Atoi_of_isDigits s h, hn, if_false, NumError_range_message s h]

/-- C14 at `007`, which evaluates to 7, and at `9223372036854775808`, the
first number that does not fit. -/
theorem C14_integer_literal_witness :
    isDigits "007" ∧ decimalValue "007" = 7 ∧
    Visit sampleLexer NewCalcVisitor (.IntContext "007") = (.ret ⟨7, none⟩, NewCalcVisitor) ∧
    isDigits "9223372036854775808" ∧
    Visit sampleLexer NewCalcVisitor (.IntContext "9223372036854775808")
      = (.ret ⟨0, some (.wrapError
          ("couldn't parse integer: '" ++ "9223372036854775808" ++ "': "
            ++ ("strconv.Atoi: parsing \"" ++ "9223372036854775808"
              ++ "\": value out of range"))
          (.NumError "Atoi" "9223372036854775808" ErrRange))⟩, NewCalcVisitor) :=
  ⟨by decide, by decide,
   (C14_integer_literal sampleLexer NewCalcVisitor "007" (by decide)).1 (by decide),
   by decide,
   (C14_integer_literal sampleLexer NewCalcVisitor "9223372036854775808" (by decide)).2.1
     (by decide)⟩

/-! ## C15: error nodes -/

/-- When the children `before` are visited to the end, visiting
`before ++ after` continues with `after` in the memory they left. -/
theorem VisitChildren_append (lx : LabeledExprLexer) (echo : Bool)
    (before after : List ParseTree) :
    ∀ (memory memory1 : Memory) (cr : CalcReturn) (writes1 : List Write),
      VisitChildren lx echo memory before = (.ret cr, memory1, writes1) →
      VisitChildren lx echo memory (before ++ after)
        = ((VisitChildren lx echo memory1 after).1, (VisitChildren lx echo memory1 after).2.1,
            writes1 ++ (VisitChildren lx echo memory1 after).2.2) := by
  induction before with
  | nil =>
    intro memory memory1 cr writes1 h
    simp only [VisitChildren, Prod.mk.injEq] at h
    obtain ⟨_, rfl, rfl⟩ := h
    simp
  | cons n rest ih =>
    intro memory memory1 cr writes1 h
    simp only [VisitChildren, List.cons_append] at h ⊢
    rcases hv : Visit lx memory n with ⟨o, m1⟩
    rw [hv] at h
    cases o with
    | panic msg => simp at h
    | ret crn =>
      dsimp only at h ⊢
      rcases hr : VisitChildren lx echo m1 rest with ⟨o2, m2, w2⟩
      rw [hr] at h
      simp only [Prod.mk.injEq] at h
      obtain ⟨rfl, rfl, rfl⟩ := h
      have hih := ih m1 m2 cr w2 hr
      change VisitChildren lx echo m1 (rest.append after) = _ at hih
      rw [hih]
      simp [List.append_assoc]

/-- C15: an error node evaluates, in every memory, to the error
`syntax error near '<text>'` (never to a value, never to a panic) and leaves
the memory as it was; in a program, the children after it are visited in that
same memory, after its `ERROR:` line, and when the children before it are
visited to the end, the children after it are visited in the memory those
left. -/
theorem C15_error_node (lx : LabeledExprLexer) (memory : Memory) (text : String)
    (echo : Bool) (before after : List ParseTree) :
    Visit lx memory (.ErrorNodeImpl text)
      = (.ret ⟨0, some (.errorString ("syntax error near '" ++ text ++ "'"))⟩, memory) ∧
    VisitChildren lx echo memory (.ErrorNodeImpl text :: after)
      = ((VisitChildren lx echo memory after).1, (VisitChildren lx echo memory after).2.1,
          echoOf echo (.ErrorNodeImpl text)
            ++ [.Stderr ("ERROR: " ++ ("syntax error near '" ++ text ++ "'") ++ "\n")]
            ++ (VisitChildren lx echo memory after).2.2) ∧
    (∀ (memory1 : Memory) (cr : CalcReturn) (writes1 : List Write),
      VisitChildren lx echo memory before = (.ret cr, memory1, writes1) →
      VisitChildren lx echo memory (before ++ .ErrorNodeImpl text :: after)
        = ((VisitChildren lx echo memory1 after).1, (VisitChildren lx echo memory1 after).2.1,
            writes1 ++ (echoOf echo (.ErrorNodeImpl text)
              ++ [.Stderr ("ERROR: " ++ ("syntax error near '" ++ text ++ "'") ++ "\n")]
              ++ (VisitChildren lx echo memory1 after).2.2))) := by
  have hcons : ∀ m : Memory, VisitChildren lx echo m (.ErrorNodeImpl text :: after)
      = ((VisitChildren lx echo m after).1, (VisitChildren lx echo m after).2.1,
          echoOf echo (.ErrorNodeImpl text)
            ++ [.Stderr ("ERROR: " ++ ("syntax error near '" ++ text ++ "'") ++ "\n")]
            ++ (VisitChildren lx echo m after).2.2) := by
    intro m
    simp [VisitChildren, Visit, report, errorsIsErrorBlank, GoError.Error]
  refine ⟨rfl, hcons memory, ?_⟩
  intro memory1 cr writes1 h
  rw [VisitChildren_append lx echo before _ memory memory1 cr writes1 h, hcons memory1]

/-! ## C16: an end-to-end run -/

/-- C16: from an empty memory, the statement trees of `x = 5`,
`y = x * 2 + 1` and `y`, evaluated in order, yield the outcomes 5, 11 and 11;
the memory left is exactly `x ↦ 5, y ↦ 11`, and `VisitChildren` over the three
prints `  5`, `  11`, `  11`. -/
theorem C16_end_to_end (lx : LabeledExprLexer) :
    programOutcomes lx NewCalcVisitor (endToEnd lx)
      = [.ret ⟨5, none⟩, .ret ⟨11, none⟩, .ret ⟨11, none⟩] ∧
    programMemory lx NewCalcVisitor (endToEnd lx) = (NewCalcVisitor.set "x" 5).set "y" 11 ∧
    (∀ k : String, programMemory lx NewCalcVisitor (endToEnd lx) k
      = if k = "y" then some 11 else if k = "x" then some 5 else none) ∧
    VisitChildren lx false NewCalcVisitor (endToEnd lx)
      = (.ret ⟨0, none⟩, (NewCalcVisitor.set "x" 5).set "y" 11,
          [.Stdout "  5\n", .Stdout "  11\n", .Stdout "  11\n"]) := by
  have h5 : Atoi "5" = (5, none) := by decide
  have h2 : Atoi "2" = (2, none) := by decide
  have h1 : Atoi "1" = (1, none) := by decide
  have w10 : wrapInt 10 = 10 := by decide
  have w11 : wrapInt 11 = 11 := by decide
  have hxy : ¬ ("x" = "y") := by decide
  have f5 : "  " ++ fmtInt 5 ++ "\n" = "  5\n" := by decide
  have f11 : "  " ++ fmtInt 11 ++ "\n" = "  11\n" := by decide
  have v1 : Visit lx NewCalcVisitor (.AssignContext "x=5\n" "x" (.IntContext "5"))
      = (.ret ⟨5, none⟩, NewCalcVisitor.set "x" 5) := by
    simp [Visit, h5]
  have v2 : Visit lx (NewCalcVisitor.set "x" 5)
      (.AssignContext "y=x*2+1\n" "y"
        (.AddSubContext "x*2+1"
          (.MulDivContext "x*2" (.IdContext "x" "x") lx.MUL (.IntContext "2"))
          lx.ADD (.IntContext "1")))
      = (.ret ⟨11, none⟩, (NewCalcVisitor.set "x" 5).set "y" 11) := by
    simp [Visit, h2, h1, Memory.set, w10, w11]
  have v3 : Visit lx ((NewCalcVisitor.set "x" 5).set "y" 11)
      (.PrintExprContext "y\n" (.IdContext "y" "y"))
      = (.ret ⟨11, none⟩, (NewCalcVisitor.set "x" 5).set "y" 11) := by
    simp [Visit, Memory.set]
  refine ⟨?_, ?_, ?_, ?_⟩
  · simp only [endToEnd, programOutcomes, v1, v2, v3]
  · simp only [endToEnd, programMemory, v1, v2, v3]
  · intro k
    simp only [endToEnd, programMemory, v1, v2, v3]
    simp [Memory.set, NewCalcVisitor]
  · simp only [endToEnd, VisitChildren, v1, v2, v3, echoOf, report, f5, f11]
    simp

/-! ## C17: what the driver writes -/

/-- C18: when both operands of a binary operation node evaluate successfully
and the operator token is not one the node kind accepts (neither `MUL` nor
`DIV` on a mul/div node, neither `ADD` nor `SUB` on an add/sub node), the
evaluation returns the error `wrong operator '<token type>'`, whatever the
operand values are (a right value of 0 included); it does not panic. -/
theorem C18_unknown_operator (lx : LabeledExprLexer) (memory memory1 memory2 : Memory)
    (text : String) (left right : ParseTree) (op a b : Int)
    (hl : Visit lx memory left = (.ret ⟨a, none⟩, memory1))
    (hr : Visit lx memory1 right = (.ret ⟨b, none⟩, memory2)) :
    (op ≠ lx.MUL ∧ op ≠ lx.DIV →
      Visit lx memory (.MulDivContext text left op right)
        = (.ret ⟨0, some (.errorString ("wrong operator '" ++ fmtInt op ++ "'"))⟩, memory2)) ∧
    (op ≠ lx.ADD ∧ op ≠ lx.SUB →
      Visit lx memory (.AddSubContext text left op right)
        = (.ret ⟨0, some (.errorString ("wrong operator '" ++ fmtInt op ++ "'"))⟩, memory2)) := by
  constructor
  · rintro ⟨h1, h2⟩
    simp [Visit, hl, hr, h1, h2]
  · rintro ⟨h1, h2⟩
    simp [Visit, hl, hr, h1, h2]

/-- C18 at a mul/div node and an add/sub node over the operands 1 and 0, with
the operator tokens exchanged. -/
theorem C18_unknown_operator_witness :
    Visit sampleLexer NewCalcVisitor
        (.MulDivContext "1+0" (.IntContext "1") sampleLexer.ADD (.IntContext "0"))
      = (.ret ⟨0, some (.errorString ("wrong operator '" ++ fmtInt sampleLexer.ADD ++ "'"))⟩,
          NewCalcVisitor) ∧
    Visit sampleLexer NewCalcVisitor
        (.AddSubContext "1/0" (.IntContext "1") sampleLexer.DIV (.IntContext "0"))
      = (.ret ⟨0, some (.errorString ("wrong operator '" ++ fmtInt sampleLexer.DIV ++ "'"))⟩,
          NewCalcVisitor) ∧
    "wrong operator '" ++ fmtInt sampleLexer.ADD ++ "'" = "wrong operator '6'" :=
  ⟨(C18_unknown_operator sampleLexer NewCalcVisitor NewCalcVisitor NewCalcVisitor "1+0"
      (.IntContext "1") (.IntContext "0") sampleLexer.ADD 1 0 rfl rfl).1 (by decide),
   (C18_unknown_operator sampleLexer NewCalcVisitor NewCalcVisitor NewCalcVisitor "1/0"
      (.IntContext "1") (.IntContext "0") sampleLexer.DIV 1 0 rfl rfl).2 (by decide),
   by decide⟩

/-! ## C19: addition, subtraction, multiplication -/

/-- The reduction `wrapInt` lands in the `int` range, differs from its
argument by a multiple of `2^64`, and leaves an `int` as it is. -/
theorem wrapInt_spec (x : Int) :
    inIntRange (wrapInt x) ∧ (wrapInt x - x) % 2 ^ 64 = 0 ∧ (inIntRange x → wrapInt x = x) := by
  refine ⟨?_, ?_, wrapInt_of_inIntRange⟩
  · unfold inIntRange minInt maxInt wrapInt intSize
    norm_num
    omega
  · unfold wrapInt intSize
    norm_num
    omega

/-- C19: when the operands evaluate successfully to `a` and `b`, the nodes
`a + b`, `a - b` and `a * b` evaluate successfully, with no error of any kind,
to the mathematical result reduced modulo `2^64` into the signed 64-bit range:
the value is in that range, differs from the exact result by a multiple of
`2^64`, and is the exact result whenever that is in range. -/
theorem C19_wraparound (lx : LabeledExprLexer) (memory memory1 memory2 : Memory)
    (text : String) (left right : ParseTree) (a b : Int)
    (hl : Visit lx memory left = (.ret ⟨a, none⟩, memory1))
    (hr : Visit lx memory1 right = (.ret ⟨b, none⟩, memory2)) :
    Visit lx memory (.AddSubContext text left lx.ADD right)
      = (.ret ⟨wrapInt (a + b), none⟩, memory2) ∧
    Visit lx memory (.AddSubContext text left lx.SUB right)
      = (.ret ⟨wrapInt (a - b), none⟩, memory2) ∧
    Visit lx memory (.MulDivContext text left lx.MUL right)
      = (.ret ⟨wrapInt (a * b), none⟩, memory2) ∧
    (∀ x : Int, inIntRange (wrapInt x) ∧ (wrapInt x - x) % 2 ^ 64 = 0 ∧
      (inIntRange x → wrapInt x = x)) := by
  refine ⟨by simp [Visit, hl, hr], by simp [Visit, hl, hr, lx.SUB_ne_ADD],
    by simp [Visit, hl, hr], wrapInt_spec⟩

/-- C19 at `9223372036854775807+1`, which wraps to `-2^63`, with `3-5` and
`6*7` on the same operand trees read as the exact results. -/
theorem C19_wraparound_witness :
    (Visit sampleLexer NewCalcVisitor
        (.AddSubContext "9223372036854775807+1" (.IntContext "9223372036854775807")
          sampleLexer.ADD (.IntContext "1"))
      = (.ret ⟨wrapInt (9223372036854775807 + 1), none⟩, NewCalcVisitor)) ∧
    wrapInt (9223372036854775807 + 1) = -9223372036854775808 ∧
    wrapInt (3 - 5) = -2 ∧ wrapInt (6 * 7) = 42 :=
  ⟨(C19_wraparound sampleLexer NewCalcVisitor NewCalcVisitor NewCalcVisitor
      "9223372036854775807+1" (.IntContext "9223372036854775807") (.IntContext "1")
      9223372036854775807 1 rfl rfl).1,
   by decide, by decide, by decide⟩

/-! ## C20: an unreadable batch file -/

/-- C20, at the failing input: with `--file nosuch.txt`, no other argument and
a file that cannot be read, the process ends in the run-time panic
`index out of range [0] with length 0` without having written the `ERROR:`
line, instead of exiting with status 1; and with one more argument `other.txt`
the line names `other.txt`, not the file that was requested. Nothing is
evaluated in either case, whatever the frontend is. -/
theorem C20_unreadable_file (lx : LabeledExprLexer) (frontend : Frontend) :
    mainFile lx frontend noFiles "nosuch.txt" [] = (.panic indexError, []) ∧
    mainFile lx frontend noFiles "nosuch.txt" ["other.txt"]
      = (.exit 1, [.Stderr
          "ERROR: failed to read file 'other.txt': open nosuch.txt: no such file or directory\n"])
    := by
  constructor
  · rfl
  · simp only [mainFile, noFiles, GoError.Error]
    decide

end Calc
